import Mathlib

/-!
Verification of the trade-lifecycle front-end logic in
`src/static/js/app.js` (BESSST-XRPL-Project).

The development shallowly embeds the trade-related functions of
`app.js`: the API gateway helper `fetchJson`, the phone-identifier
validator `requirePhoneIdentifier`, the progress renderer
`renderTradeStepProgress`, and the trade lifecycle controller
(`startTradeFlow`, `refreshActiveTradeStatus`, `startTradePolling`,
`stopTradePolling`, `resetTrade`, `cancelOffer`).

JavaScript side effects (DOM writes, navigation, data refreshes,
alerts) are modelled as an explicit effect list; the mutable globals
(`appState.activeTrade`, `trackInterval`, `tradeData`) become fields of
an explicit controller state threaded through the functions.  Network
calls are parameters: each function that awaits a request takes the
settled outcome of that request as an argument (`Except` for a promise
that may reject).
-/

namespace App

/-! ## JavaScript string primitives

JS strings are modelled as Lean `String`s; the string methods the
trade code uses (`trim`, `toLowerCase`, `toUpperCase`, `startsWith`,
`x || default`) are defined here over the character list.  `trim` is
modelled with Lean's `Char.isWhitespace` class (space, tab, CR, LF),
the whitespace actually occurring in this application's inputs. -/

/-- JavaScript `x || d` on an optional string: `undefined`/`null` and
the empty string are falsy, any other string is returned as-is. -/
def jsOrElse (o : Option String) (d : String) : String :=
  match o with
  | some s => if s = "" then d else s
  | none => d

/-- JavaScript truthiness of an optional string. -/
def jsTruthy (o : Option String) : Bool :=
  match o with
  | some s => s ≠ ""
  | none => false

/-- JS `s.trim()`: drop whitespace from both ends. -/
def jsTrim (s : String) : String :=
  ⟨(s.data.dropWhile Char.isWhitespace).rdropWhile Char.isWhitespace⟩

/-- JS `s.toLowerCase()` (the inputs concerned are basic latin). -/
def jsToLowerCase (s : String) : String :=
  ⟨s.data.map Char.toLower⟩

/-- JS `s.toUpperCase()` (the inputs concerned are basic latin). -/
def jsToUpperCase (s : String) : String :=
  ⟨s.data.map Char.toUpper⟩

/-- JS `s.startsWith(pre)`. -/
def jsStartsWith (s pre : String) : Bool :=
  pre.data.isPrefixOf s.data

/-! ## API gateway client: `fetchJson` (app.js lines 49-63)

A backend response is an HTTP status flag `ok` plus a parsed JSON
body; a body that fails to parse is `none` (the code replaces it with
`{}`).  A transport failure (the `fetch` promise rejecting) is the
`Except.error` case of the input, carrying the transport error's own
message; `fetchJson` does not catch it, so it propagates unchanged. -/

/-- The fields of the response body that `fetchJson` inspects:
`body.success` (absent, `true` or explicitly `false`), `body.error`
(absent or a string) and `body.data` (the payload, possibly absent). -/
structure JsonBody (α : Type) where
  success : Option Bool
  error : Option String
  data : Option α
deriving Repr, DecidableEq

/-- An HTTP response: `ok` is `response.ok`, `body` the parsed JSON
body (`none` when `response.json()` threw). -/
structure HttpResponse (α : Type) where
  ok : Bool
  body : Option (JsonBody α)
deriving Repr, DecidableEq

/-- The empty body `{}` substituted when JSON parsing fails. -/
def emptyBody (α : Type) : JsonBody α :=
  { success := none, error := none, data := none }

/-- Embedding of `fetchJson` (app.js lines 49-63).  Throws
`new Error(body.error || 'Request failed')` when
`!response.ok || body.success === false`; returns `body.data`
otherwise; a rejection of `fetch` itself is not caught. -/
def fetchJson {α : Type} (tr : Except String (HttpResponse α)) :
    Except String (Option α) :=
  match tr with
  | .error e => .error e
  | .ok resp =>
    let body := resp.body.getD (emptyBody α)
    if resp.ok = false ∨ body.success = some false then
      .error (jsOrElse body.error "Request failed")
    else
      .ok body.data

/-! ## Phone-identifier validation (app.js lines 89-107) -/

/-- Embedding of `normalizeCurrency` (app.js lines 89-91):
`String(value || '').trim().toUpperCase()`. -/
def normalizeCurrency (value : String) : String :=
  jsToUpperCase (jsTrim value)

/-- Embedding of `isLikelyXrplAddress` (app.js lines 93-96):
`String(value || '').trim().toLowerCase().startsWith('r')`. -/
def isLikelyXrplAddress (value : String) : Bool :=
  jsStartsWith (jsToLowerCase (jsTrim value)) "r"

/-- Embedding of `requirePhoneIdentifier` (app.js lines 98-107): trims the input,
throws on empty, throws when it looks like a wallet address, otherwise
returns the trimmed text. -/
def requirePhoneIdentifier (value : String)
    (fieldName : String := "Phone number") : Except String String :=
  let text := jsTrim value
  if text = "" then
    .error "field cannot be empty"
  else if isLikelyXrplAddress text then
    .error (fieldName ++ ": please enter a phone number, not a wallet address.")
  else
    .ok text

/-! ## Progress rendering (app.js lines 1301-1338) -/

/-- The `stagePct` lookup with the `|| 0` fallback of
`renderTradeStepProgress` (app.js lines 1302-1310): percentage shown
for each status, any unknown status mapping to 0. -/
def stagePct (status : String) : Nat :=
  if status = "submitted" then 15
  else if status = "open" then 45
  else if status = "partially_filled" then 75
  else if status = "filled" then 100
  else 0

/-- The active stage index of the four-stage tracker (app.js line
1318): `submitted→0, open→1, partially_filled→2`, anything else `→3`. -/
def stageActiveIndex (status : String) : Nat :=
  if status = "submitted" then 0
  else if status = "open" then 1
  else if status = "partially_filled" then 2
  else 3

/-! ## Controller state and effects

`appState.activeTrade`, the timer handle `trackInterval` and the
scratch object `tradeData` are the mutable globals of the trade flow;
`liveTimers` records every interval id created by `setInterval` and
not yet cleared (so that timer leaks are expressible), `nextTimerId`
the next fresh id (interval ids are positive, so `if (trackInterval)`
is the same as `isSome`).  DOM writes, alerts, navigation and data
refreshes are emitted as effects. -/

/-- The `appState.activeTrade` object. -/
structure ActiveTrade where
  offerSequence : Nat
  txHash : String
deriving Repr, DecidableEq

/-- The mutable `tradeData` scratch object; fields start out absent. -/
structure TradeData where
  offerSequence : Option Nat := none
  txHash : Option String := none
  offerId : Option String := none
  sellCurrency : Option String := none
  sellAmount : Option String := none
  buyCurrency : Option String := none
  buyAmount : Option String := none
  sellIssuer : Option String := none
  buyIssuer : Option String := none
deriving Repr, DecidableEq

/-- The controller state: the trade-related mutable globals of app.js
plus the currently displayed trade screen. -/
structure CtrlState where
  activeTrade : Option ActiveTrade := none
  trackInterval : Option Nat := none
  liveTimers : List Nat := []
  nextTimerId : Nat := 1
  tradeData : TradeData := {}
  screen : Nat := 1
deriving Repr, DecidableEq

/-- Observable side effects of the trade flow. -/
inductive Effect where
  | message (text : String) (isError : Bool)
  | alert (text : String)
  | refreshAll
  | navigate (page : String)
  | showScreen (n : Nat)
  | setLedgerLabel (text : String)
  | renderProgress (pct : Nat) (activeIndex : Nat)
  | populateMatchView
  | populateConfirmView (tx : String) (ledger : String)
  | setSubmitDisabled (disabled : Bool)
deriving Repr, DecidableEq

/-- Embedding of `stopTradePolling` (app.js lines 1492-1497): clear the interval if
one is set. -/
def stopTradePolling (s : CtrlState) : CtrlState :=
  match s.trackInterval with
  | some id =>
    { s with trackInterval := none, liveTimers := s.liveTimers.erase id }
  | none => s

/-- Embedding of `startTradePolling` (app.js lines 1483-1490): stop any previous
interval, then create a fresh one. -/
def startTradePolling (s : CtrlState) : CtrlState :=
  let s0 := stopTradePolling s
  { s0 with
    trackInterval := some s0.nextTimerId,
    liveTimers := s0.liveTimers ++ [s0.nextTimerId],
    nextTimerId := s0.nextTimerId + 1 }

/-- The screen actually shown by `showTradeScreen` (app.js lines
1340-1343): requests for screens 2 and 3 are redirected to 4. -/
def showTradeScreenTarget (n : Nat) : Nat :=
  if n = 2 ∨ n = 3 then 4 else n

/-- Embedding of `showTradeScreen` (app.js lines 1340-1350). -/
def showTradeScreen (n : Nat) (s : CtrlState) : CtrlState × Effect :=
  let t := showTradeScreenTarget n
  ({ s with screen := t }, Effect.showScreen t)

/-- Embedding of `resetTrade` (app.js lines 1545-1549): stop polling, clear the
active trade, show trade screen 1. -/
def resetTrade (s : CtrlState) : CtrlState × List Effect :=
  let s1 := { stopTradePolling s with activeTrade := none }
  let (s2, e2) := showTradeScreen 1 s1
  (s2, [e2])

/-! ## The status poll (app.js lines 1428-1497) -/

/-- The body of a `/api/trade/status` response. -/
structure StatusData where
  status : String
  tx_hash : Option String := none
  last_ledger : Option String := none
deriving Repr, DecidableEq

/-- The entry guard of `refreshActiveTradeStatus` (app.js line 1429):
`if (!appState.activeTrade || !appState.activeTrade.offerSequence)
return;` — evaluated at tick time, before the status request is
issued. -/
def refreshActiveTradeStatusGuard (s : CtrlState) : Bool :=
  match s.activeTrade with
  | some t => t.offerSequence != 0
  | none => false

/-- Embedding of `populateMatch` (app.js lines 1499-1510): renders the match view
and, when the status carries a tx hash, stores it in `tradeData`. -/
def populateMatch (s : CtrlState) (d : StatusData) : CtrlState × Effect :=
  let td :=
    if jsTruthy d.tx_hash then
      { s.tradeData with txHash := some (d.tx_hash.getD "") }
    else s.tradeData
  ({ s with tradeData := td }, Effect.populateMatchView)

/-- Embedding of `populateConfirm` (app.js lines 1512-1517): pure DOM rendering of
`statusData.tx_hash || tradeData.txHash || '—'` and
`statusData.last_ledger || 'Validated ledger'`. -/
def populateConfirm (s : CtrlState) (d : StatusData) : Effect :=
  Effect.populateConfirmView
    (jsOrElse d.tx_hash (jsOrElse s.tradeData.txHash "—"))
    (jsOrElse d.last_ledger "Validated ledger")

/-- The continuation of `refreshActiveTradeStatus` after the status
request settles (app.js lines 1436-1481), evaluated against whatever
state holds at arrival time — the code re-reads the globals there but
performs no check that the polled trade is still the active one.  The
third component is the error thrown, if any: when the status is `open`
or `submitted` and `appState.activeTrade` is `null` at arrival, the
template literal `` `Offer #${appState.activeTrade.offerSequence}` ``
throws a TypeError (modelled by a fixed message; the claims never
depend on its text). -/
def refreshActiveTradeStatusApply (s : CtrlState) (d : StatusData) :
    CtrlState × List Effect × Option String :=
  let status := d.status
  let eff0 : List Effect :=
    [Effect.setLedgerLabel ("Status: " ++ status),
     Effect.renderProgress (stagePct status) (stageActiveIndex status)]
  if status = "open" ∨ status = "submitted" then
    let (s1, e1) := showTradeScreen 2 s
    match s.activeTrade with
    | some t =>
      (s1,
       eff0 ++ [e1,
         Effect.message
           ("Offer #" ++ toString t.offerSequence ++ " is " ++ status ++
             " on ledger.") false],
       none)
    | none =>
      (s1, eff0 ++ [e1], some "TypeError: appState.activeTrade is null")
  else if status = "partially_filled" then
    let (s1, e1) := populateMatch s d
    let (s2, e2) := showTradeScreen 3 s1
    (s2,
     eff0 ++ [e1, e2,
       Effect.message
         "A partial fill was detected. Review details and continue monitoring."
         false],
     none)
  else if status = "filled" then
    let newTx := jsOrElse d.tx_hash (jsOrElse s.tradeData.txHash "—")
    let s1 := { s with tradeData := { s.tradeData with txHash := some newTx } }
    let e1 := populateConfirm s1 d
    let (s2, e2) := showTradeScreen 4 s1
    let s3 := stopTradePolling s2
    (s3,
     eff0 ++ [e1, e2, Effect.message "Trade filled successfully." false,
       Effect.refreshAll],
     none)
  else if status = "cancelled" then
    let s1 := { stopTradePolling s with activeTrade := none }
    (s1,
     eff0 ++ [Effect.message "Offer cancelled." true, Effect.refreshAll,
       Effect.navigate "dashboard"],
     none)
  else if status = "failed" then
    let s1 := { stopTradePolling s with activeTrade := none }
    (s1,
     eff0 ++ [Effect.message "Offer failed or no longer available." true,
       Effect.refreshAll, Effect.navigate "dashboard"],
     none)
  else
    (s, eff0, none)

/-- The settling of a status response at arrival state `s`: the apply
step above, with a thrown error routed to the `.catch` of the interval
callback (app.js lines 1486-1488), which shows it as a trade status
message. -/
def pollArrive (s : CtrlState) (d : StatusData) : CtrlState × List Effect :=
  match refreshActiveTradeStatusApply s d with
  | (s1, effs, none) => (s1, effs)
  | (s1, effs, some err) =>
    (s1, effs ++ [Effect.message (jsOrElse (some err) "Trade status polling error.") true])

/-- One poll tick in which no external mutation interleaves between
the fetch and its settlement (the interval callback, app.js lines
1485-1488): the guard runs first; a rejected status request is caught
and surfaced as a trade status message, and nothing else happens. -/
def pollTick (s : CtrlState) (outcome : Except (Option String) StatusData) :
    CtrlState × List Effect :=
  if refreshActiveTradeStatusGuard s = false then
    (s, [])
  else
    match outcome with
    | .error e =>
      (s, [Effect.message (jsOrElse e "Trade status polling error.") true])
    | .ok d => pollArrive s d

/-! ## Trade creation (app.js lines 1352-1426) -/

/-- The `data` payload of a successful `/api/trade/create` response. -/
structure CreateResponse where
  offer_sequence : Nat
  tx_hash : Option String := none
deriving Repr, DecidableEq

/-- The raw values of the six trade form fields. -/
structure TradeForm where
  sellCurrency : String := ""
  sellAmount : String := ""
  buyCurrency : String := ""
  buyAmount : String := ""
  sellIssuer : String := ""
  buyIssuer : String := ""
deriving Repr, DecidableEq

/-- Embedding of `captureForm` (app.js lines 1352-1360): copy the form fields into
`tradeData` (currencies normalized, the rest trimmed; the wall-clock
`time` field is not modelled). -/
def captureForm (td : TradeData) (f : TradeForm) : TradeData :=
  { td with
    sellCurrency := some (normalizeCurrency f.sellCurrency),
    sellAmount := some (jsTrim f.sellAmount),
    buyCurrency := some (normalizeCurrency f.buyCurrency),
    buyAmount := some (jsTrim f.buyAmount),
    sellIssuer := some (jsTrim f.sellIssuer),
    buyIssuer := some (jsTrim f.buyIssuer) }

/-- Embedding of `startTradeFlow` (app.js lines 1366-1426), with the settled
outcome of the `/api/trade/create` call as a parameter (a logged-in
session is assumed, so `getRequiredUsername` does not redirect).  On
success the code stores the offer sequence and tx hash in `tradeData`,
sets `appState.activeTrade = null`, stops polling, renders the confirm
screen with a demo-mode message and triggers a full refresh; it never
creates an `ActiveTrade` and never starts the poll loop.  Validation
failures and request rejections land in the `catch` block. -/
def startTradeFlow (s : CtrlState) (f : TradeForm)
    (createResult : Except (Option String) CreateResponse) :
    CtrlState × List Effect :=
  let s0 := { s with tradeData := captureForm s.tradeData f }
  if jsTrim f.sellAmount = "" ∨ jsTrim f.buyAmount = "" then
    (s0, [Effect.alert "field cannot be empty"])
  else
    let issuersChecked : Except String Unit :=
      match (if jsTrim f.sellIssuer ≠ "" then
               requirePhoneIdentifier (jsTrim f.sellIssuer)
                 "Sell provider phone override"
             else Except.ok "") with
      | .error e => .error e
      | .ok _ =>
        match (if jsTrim f.buyIssuer ≠ "" then
                 requirePhoneIdentifier (jsTrim f.buyIssuer)
                   "Buy provider phone override"
               else Except.ok "") with
        | .error e => .error e
        | .ok _ => .ok ()
    let outcome : Except (Option String) CreateResponse :=
      match issuersChecked with
      | .error e => .error (some e)
      | .ok _ => createResult
    match outcome with
    | .ok r =>
      let refStr := if r.offer_sequence = 0 then "—" else toString r.offer_sequence
      let td1 :=
        { s0.tradeData with
          offerSequence := some r.offer_sequence,
          txHash := some (jsOrElse r.tx_hash "—"),
          offerId := some ("#" ++ toString r.offer_sequence) }
      let s1 := stopTradePolling { s0 with tradeData := td1, activeTrade := none }
      let e1 := populateConfirm s1
        { status := "", tx_hash := some (jsOrElse r.tx_hash "—"),
          last_ledger := some ("REF #" ++ refStr) }
      let (s2, e2) := showTradeScreen 4 s1
      (s2,
       [Effect.setSubmitDisabled true, e1, e2,
        Effect.message "Trade signed and submitted. Auto-completed in demo mode." false,
        Effect.refreshAll,
        Effect.setSubmitDisabled false])
    | .error e =>
      let text := jsOrElse e "Failed to create trade offer."
      (s0,
       [Effect.setSubmitDisabled true, Effect.message text true,
        Effect.alert text, Effect.setSubmitDisabled false])

/-! ## Explicit cancellation (app.js lines 1555-1578) -/

/-- Embedding of `cancelOffer` (app.js lines 1555-1578), with the settled outcome
of `/api/trade/cancel` as a parameter.  Without an active trade no
request is issued (the parameter is ignored, as the code never awaits
one). -/
def cancelOffer (s : CtrlState) (cancelResult : Except (Option String) Unit) :
    CtrlState × List Effect :=
  let hasTrade : Bool :=
    match s.activeTrade with
    | some t => t.offerSequence != 0
    | none => false
  if hasTrade = false then
    let (s1, e1) := resetTrade s
    (s1, e1 ++ [Effect.navigate "dashboard"])
  else
    match cancelResult with
    | .ok _ =>
      let s1 := { stopTradePolling s with activeTrade := none }
      let (s2, e2) := resetTrade s1
      (s2, e2 ++ [Effect.refreshAll, Effect.navigate "dashboard",
        Effect.message "Offer cancelled." false])
    | .error e =>
      let text := jsOrElse e "Unable to cancel offer."
      (s, [Effect.message text true, Effect.alert text])

/-! ## Executions of the controller

An execution is a sequence of the controller entry points, each with
the settled outcome of whatever request it awaits.  `arrive` applies a
status response that was in flight to the current (possibly since
changed) state, which is how a stale result lands. -/

/-- One invocation of a controller entry point. -/
inductive TradeOp where
  | create (f : TradeForm) (r : Except (Option String) CreateResponse)
  | tick (outcome : Except (Option String) StatusData)
  | arrive (d : StatusData)
  | startPolling
  | reset
  | cancel (r : Except (Option String) Unit)

/-- The state transition of one controller invocation. -/
def applyOp (s : CtrlState) : TradeOp → CtrlState
  | .create f r => (startTradeFlow s f r).1
  | .tick o => (pollTick s o).1
  | .arrive d => (pollArrive s d).1
  | .startPolling => startTradePolling s
  | .reset => (resetTrade s).1
  | .cancel r => (cancelOffer s r).1

/-- The initial state: no active trade, no timer (`trackInterval =
null`), empty `tradeData`, trade screen 1. -/
def initState : CtrlState := {}

/-- The timer bookkeeping invariant: the tracked handle is exactly the
set of live interval timers (so there is at most one live timer), and
every live id is below the fresh-id counter. -/
def timerConsistent (s : CtrlState) : Prop :=
  (∀ id, s.trackInterval = some id → s.liveTimers = [id]) ∧
  (s.trackInterval = none → s.liveTimers = []) ∧
  ∀ id ∈ s.liveTimers, id < s.nextTimerId

/-! ## Poll scheduling (app.js lines 1483-1490)

`startTradePolling` uses `setInterval(cb, 4000)`: ticks fire on a
fixed wall-clock cadence, whether or not the previous tick's status
request has settled.  The alternative the specification describes —
scheduling each tick only after the previous asynchronous operation
settles — is modelled alongside for comparison. -/

/-- How poll ticks are scheduled: on a fixed wall-clock cadence
(`setInterval`), or each tick re-armed only after the previous tick's
asynchronous operation settles. -/
inductive PollScheduling where
  | fixedInterval (ms : Nat)
  | afterSettle (ms : Nat)
deriving Repr, DecidableEq

/-- The scheduling the source actually uses:
`trackInterval = setInterval(..., 4000)` (app.js line 1485). -/
def tradePollScheduling : PollScheduling :=
  PollScheduling.fixedInterval 4000

/-- Start time of the `n`-th tick (0-based), given the duration
`dur k` of the `k`-th tick's asynchronous operation.  Under
`fixedInterval` the timer fires at `ms, 2*ms, ...` independently of
the durations; under `afterSettle` tick `n+1` is armed when tick `n`'s
operation settles. -/
def tickStart (sch : PollScheduling) (dur : Nat → Nat) : Nat → Nat
  | 0 =>
    match sch with
    | .fixedInterval ms => ms
    | .afterSettle ms => ms
  | n + 1 =>
    match sch with
    | .fixedInterval ms => ms * (n + 2)
    | .afterSettle ms => tickStart sch dur n + dur n + ms

/-- The time at which the `n`-th tick's asynchronous operation
settles. -/
def settleTime (sch : PollScheduling) (dur : Nat → Nat) (n : Nat) : Nat :=
  tickStart sch dur n + dur n

/-- Ticks do not overlap: every tick's asynchronous operation settles
no later than the next tick starts. -/
def TicksDoNotOverlap (sch : PollScheduling) (dur : Nat → Nat) : Prop :=
  ∀ n, settleTime sch dur n ≤ tickStart sch dur (n + 1)

/-! ## Concrete scenario states -/

/-- A state in the middle of polling offer #7: the poll guard passes,
so a status request goes out at this state. -/
def pollingState7 : CtrlState :=
  { activeTrade := some { offerSequence := 7, txHash := "H" },
    trackInterval := some 1, liveTimers := [1], nextTimerId := 2 }

/-- The state after the user resets the trade while the status request
for offer #7 is still in flight: the active trade is cleared and the
timer stopped, but the request was not aborted. -/
def clearedState7 : CtrlState :=
  (resetTrade pollingState7).1

/-! # Theorems -/

/-! ### Basic facts about `stopTradePolling` -/

theorem stopTradePolling_trackInterval (s : CtrlState) :
    (stopTradePolling s).trackInterval = none := by
  unfold stopTradePolling
  cases h : s.trackInterval <;> simp [h]

theorem stopTradePolling_activeTrade (s : CtrlState) :
    (stopTradePolling s).activeTrade = s.activeTrade := by
  unfold stopTradePolling
  cases h : s.trackInterval <;> simp

theorem stopTradePolling_nextTimerId (s : CtrlState) :
    (stopTradePolling s).nextTimerId = s.nextTimerId := by
  unfold stopTradePolling
  cases h : s.trackInterval <;> simp

theorem stopTradePolling_tradeData (s : CtrlState) :
    (stopTradePolling s).tradeData = s.tradeData := by
  unfold stopTradePolling
  cases h : s.trackInterval <;> simp

theorem stopTradePolling_screen (s : CtrlState) :
    (stopTradePolling s).screen = s.screen := by
  unfold stopTradePolling
  cases h : s.trackInterval <;> simp

/-! ### C9 -/

/-- C9: the progress percentage rendered during polling is a pure
function of the status value: `submitted ↦ 15`, `open ↦ 45`,
`partially_filled ↦ 75`, `filled ↦ 100`, `cancelled ↦ 0`,
`failed ↦ 0`. -/
theorem progress_pure_function :
    stagePct "submitted" = 15 ∧ stagePct "open" = 45 ∧
    stagePct "partially_filled" = 75 ∧ stagePct "filled" = 100 ∧
    stagePct "cancelled" = 0 ∧ stagePct "failed" = 0 := by
  decide

/-! ### C8 -/

/-- C8 counterexample: on a transport failure `fetchJson` propagates
the transport error's own message unchanged — the thrown message is
neither extracted from a response body (none exists) nor the generic
default `"Request failed"`, contradicting the claim that every failure
carries a body-extracted message or the generic default. -/
theorem fetchJson_transport_message_counterexample :
    fetchJson (α := String) (.error "network down") = .error "network down" ∧
    "network down" ≠ "Request failed" := by
  exact ⟨rfl, by decide⟩

/-- C8 (amended): `fetchJson` fails exactly on a transport failure, a
non-success HTTP status, or an explicit `success: false` flag in the
body.  For the latter two the thrown message is `body.error` when that
is a non-empty string, else the generic `"Request failed"`; a transport
failure propagates the transport error's own message unchanged.  On
success it returns the `data` payload. -/
theorem fetchJson_characterization (resp : HttpResponse String) (e : String) :
    fetchJson (.error e : Except String (HttpResponse String)) = .error e ∧
    (resp.ok = true → (resp.body.getD (emptyBody String)).success ≠ some false →
      fetchJson (.ok resp) = .ok (resp.body.getD (emptyBody String)).data) ∧
    ((resp.ok = false ∨ (resp.body.getD (emptyBody String)).success = some false) →
      fetchJson (.ok resp) =
        .error (jsOrElse (resp.body.getD (emptyBody String)).error "Request failed")) := by
  refine ⟨rfl, ?_, ?_⟩
  · intro hok hsucc
    simp [fetchJson, hok, hsucc]
  · intro h
    rcases h with h | h <;> simp [fetchJson, h]

theorem fetchJson_characterization_witness :
    fetchJson (.ok ({ ok := true, body := some { success := some true, error := none, data := some "payload" } } : HttpResponse String)) = .ok (some "payload") ∧
    fetchJson (.ok ({ ok := true, body := some { success := some false, error := some "boom", data := none } } : HttpResponse String)) = .error "boom" := by
  constructor
  · exact (fetchJson_characterization _ "x").2.1 rfl (by decide)
  · have h := (fetchJson_characterization ({ ok := true, body := some { success := some false, error := some "boom", data := none } } : HttpResponse String) "x").2.2 (Or.inr rfl)
    simpa [jsOrElse] using h

/-! ### C3 -/

/-- Under fixed-interval scheduling the `n`-th tick starts at
`ms * (n+1)`, independently of how long any tick's operation takes. -/
theorem tickStart_fixedInterval (ms : Nat) (dur : Nat → Nat) (n : Nat) :
    tickStart (PollScheduling.fixedInterval ms) dur n = ms * (n + 1) := by
  cases n with
  | zero => simp [tickStart]
  | succ n => rfl

/-- C3 counterexample: with the scheduling the source actually uses
(`setInterval(..., 4000)`, fixed wall-clock cadence), a tick whose
status request takes 5000 ms is still unsettled (at 9000 ms) when the
next tick fires (at 8000 ms): poll ticks can overlap, refuting the
claimed no-overlap guarantee. -/
theorem poll_ticks_can_overlap :
    tickStart tradePollScheduling (fun _ => 5000) 1 <
      settleTime tradePollScheduling (fun _ => 5000) 0 ∧
    tickStart tradePollScheduling (fun _ => 5000) 1 = 8000 ∧
    settleTime tradePollScheduling (fun _ => 5000) 0 = 9000 := by
  refine ⟨?_, ?_, ?_⟩ <;> decide

/-- C3 (amended): the poll loop schedules ticks on a fixed 4000 ms
wall-clock cadence (`setInterval`), so tick start times are
independent of whether or when the previous asynchronous operation
settles; ticks are guaranteed not to overlap only when every status
request settles within the 4000 ms interval. -/
theorem poll_fixed_cadence (dur dur2 : Nat → Nat) (n : Nat)
    (hdur : ∀ k, dur k ≤ 4000) :
    tradePollScheduling = PollScheduling.fixedInterval 4000 ∧
    tickStart tradePollScheduling dur n = tickStart tradePollScheduling dur2 n ∧
    TicksDoNotOverlap tradePollScheduling dur := by
  refine ⟨rfl, ?_, ?_⟩
  · simp only [tradePollScheduling, tickStart_fixedInterval]
  · intro k
    have hk := hdur k
    simp only [tradePollScheduling, settleTime, tickStart_fixedInterval]
    omega

theorem poll_fixed_cadence_witness :
    tickStart tradePollScheduling (fun _ => 1000) 1 =
      tickStart tradePollScheduling (fun _ => 2000) 1 ∧
    settleTime tradePollScheduling (fun _ => 1000) 0 ≤
      tickStart tradePollScheduling (fun _ => 1000) 1 := by
  have h := poll_fixed_cadence (fun _ => 1000) (fun _ => 2000) 1 (fun k => by norm_num)
  exact ⟨h.2.1, h.2.2 0⟩

/-! ### C10 -/

/-- Only the two latin letters `r` and `R` lower-case to `r`. -/
theorem char_toLower_eq_r_iff (c : Char) :
    Char.toLower c = 'r' ↔ c = 'r' ∨ c = 'R' := by
  constructor
  · intro h
    unfold Char.toLower at h
    by_cases hb : c.toNat ≥ 65 ∧ c.toNat ≤ 90
    · rw [if_pos hb] at h
      obtain ⟨h1, h2⟩ := hb
      have hc : c = Char.ofNat c.toNat := (Char.ofNat_toNat c).symm
      interval_cases hn : c.toNat <;>
        first
          | exact absurd h (by decide)
          | (right; rw [hc]; try decide)
    · rw [if_neg hb] at h
      exact Or.inl h
  · rintro (rfl | rfl) <;> decide

/-- Trimming an already trimmed character list from the front is a
no-op: the first remaining character is not whitespace. -/
theorem dropWhile_rdropWhile_dropWhile (l : List Char) :
    ((l.dropWhile Char.isWhitespace).rdropWhile Char.isWhitespace).dropWhile
        Char.isWhitespace =
      (l.dropWhile Char.isWhitespace).rdropWhile Char.isWhitespace := by
  cases ht : (l.dropWhile Char.isWhitespace).rdropWhile Char.isWhitespace with
  | nil => rfl
  | cons c t' =>
    obtain ⟨u, hu⟩ :=
      List.rdropWhile_prefix Char.isWhitespace (l.dropWhile Char.isWhitespace)
    rw [ht] at hu
    have hl : l.dropWhile Char.isWhitespace = c :: (t' ++ u) := by
      rw [← hu]
      simp
    have hw := List.head?_dropWhile_not Char.isWhitespace l
    rw [hl] at hw
    simp only [List.head?_cons] at hw
    rw [List.dropWhile_cons_of_neg]
    simp [hw]

/-- JS `trim` is idempotent. -/
theorem jsTrim_idem (s : String) : jsTrim (jsTrim s) = jsTrim s := by
  apply String.ext
  show (((s.data.dropWhile Char.isWhitespace).rdropWhile
      Char.isWhitespace).dropWhile Char.isWhitespace).rdropWhile
      Char.isWhitespace =
    (s.data.dropWhile Char.isWhitespace).rdropWhile Char.isWhitespace
  rw [dropWhile_rdropWhile_dropWhile, List.rdropWhile_idempotent]

/-- On a trimmed, non-empty input, `isLikelyXrplAddress` holds exactly
when the first character is `r` or `R`. -/
theorem isLikelyXrplAddress_head (t : String) (c : Char) (rest : List Char)
    (ht : jsTrim t = t) (hdata : t.data = c :: rest) :
    isLikelyXrplAddress t = true ↔ (c = 'r' ∨ c = 'R') := by
  unfold isLikelyXrplAddress jsStartsWith jsToLowerCase
  rw [ht]
  show ("r".data.isPrefixOf (t.data.map Char.toLower)) = true ↔ _
  rw [hdata]
  have hr : "r".data = ['r'] := rfl
  rw [hr]
  simp only [List.map_cons, List.isPrefixOf_cons₂, List.isPrefixOf_nil_left,
    Bool.and_true, beq_iff_eq]
  rw [eq_comm]
  exact char_toLower_eq_r_iff c

/-- C10: the phone-identifier validator throws on an input that trims
to empty, throws when the trimmed input begins with `r` or `R` (it is
taken for a wallet address), and otherwise returns the trimmed input
unchanged.  Every phone field of trade creation, sending and
trust-line setup funnels through this validator (app.js lines 963,
1066, 1219, 1230, 1257, 1269, 1385, 1388, 1627, 1639). -/
theorem requirePhoneIdentifier_spec (value fieldName : String) :
    (jsTrim value = "" →
      requirePhoneIdentifier value fieldName = .error "field cannot be empty") ∧
    (∀ c rest, (jsTrim value).data = c :: rest → (c = 'r' ∨ c = 'R') →
      requirePhoneIdentifier value fieldName =
        .error (fieldName ++ ": please enter a phone number, not a wallet address.")) ∧
    (∀ c rest, (jsTrim value).data = c :: rest → ¬(c = 'r' ∨ c = 'R') →
      requirePhoneIdentifier value fieldName = .ok (jsTrim value)) := by
  refine ⟨?_, ?_, ?_⟩
  · intro h
    simp [requirePhoneIdentifier, h]
  · intro c rest hdata hc
    have hne : jsTrim value ≠ "" := by
      intro h
      rw [h] at hdata
      exact absurd hdata (by simp)
    have hlike : isLikelyXrplAddress (jsTrim value) = true :=
      (isLikelyXrplAddress_head (jsTrim value) c rest (jsTrim_idem value) hdata).mpr hc
    simp [requirePhoneIdentifier, hne, hlike]
  · intro c rest hdata hc
    have hne : jsTrim value ≠ "" := by
      intro h
      rw [h] at hdata
      exact absurd hdata (by simp)
    have hlike : isLikelyXrplAddress (jsTrim value) = false := by
      cases hb : isLikelyXrplAddress (jsTrim value) with
      | false => rfl
      | true =>
        exact absurd
          ((isLikelyXrplAddress_head (jsTrim value) c rest (jsTrim_idem value)
            hdata).mp hb) hc
    simp [requirePhoneIdentifier, hne, hlike]

theorem requirePhoneIdentifier_spec_witness :
    (jsTrim " rXYZ ").data = 'r' :: ['X', 'Y', 'Z'] ∧
    requirePhoneIdentifier " rXYZ " "Phone number" =
      .error "Phone number: please enter a phone number, not a wallet address." ∧
    requirePhoneIdentifier " 0412 " "Phone number" = .ok "0412" ∧
    requirePhoneIdentifier "   " "Phone number" = .error "field cannot be empty" := by
  refine ⟨by decide, ?_, ?_, ?_⟩
  · exact (requirePhoneIdentifier_spec " rXYZ " "Phone number").2.1 'r'
      ['X', 'Y', 'Z'] (by decide) (Or.inl rfl)
  · have h := (requirePhoneIdentifier_spec " 0412 " "Phone number").2.2 '0'
      ['4', '1', '2'] (by decide) (by decide)
    rw [show jsTrim " 0412 " = "0412" from by decide] at h
    exact h
  · exact (requirePhoneIdentifier_spec "   " "Phone number").1 (by decide)

/-! ### C1 -/

/-- C1 counterexample: a successful create response (offer sequence
42, tx hash "ABCD") leaves `appState.activeTrade = null`, no interval
timer and no live timer at all — `startTradeFlow` stores the response
in `tradeData` and shows the confirm screen, but never writes an
ActiveTrade and never starts the poll loop (the flow auto-completes in
demo mode). -/
theorem create_success_demo_counterexample :
    (startTradeFlow initState { sellCurrency := "XRP", sellAmount := "100", buyCurrency := "USD", buyAmount := "250" } (.ok { offer_sequence := 42, tx_hash := some "ABCD" })).1.activeTrade = none ∧
    (startTradeFlow initState { sellCurrency := "XRP", sellAmount := "100", buyCurrency := "USD", buyAmount := "250" } (.ok { offer_sequence := 42, tx_hash := some "ABCD" })).1.trackInterval = none ∧
    (startTradeFlow initState { sellCurrency := "XRP", sellAmount := "100", buyCurrency := "USD", buyAmount := "250" } (.ok { offer_sequence := 42, tx_hash := some "ABCD" })).1.liveTimers = [] ∧
    (startTradeFlow initState { sellCurrency := "XRP", sellAmount := "100", buyCurrency := "USD", buyAmount := "250" } (.ok { offer_sequence := 42, tx_hash := some "ABCD" })).1.tradeData.offerSequence = some 42 ∧
    (startTradeFlow initState { sellCurrency := "XRP", sellAmount := "100", buyCurrency := "USD", buyAmount := "250" } (.ok { offer_sequence := 42, tx_hash := some "ABCD" })).1.screen = 4 := by
  decide

/-- Evaluating `x || d` on an always-present non-empty string is that string. -/
theorem jsOrElse_of_ne (x d : String) (h : x ≠ "") : jsOrElse (some x) d = x := by
  simp [jsOrElse, h]

/-- Evaluating `x || '—'` never yields the empty string. -/
theorem jsOrElse_dash_ne_empty (o : Option String) : jsOrElse o "—" ≠ "" := by
  cases o with
  | none => simp [jsOrElse]
  | some x =>
    by_cases hx : x = "" <;> simp [jsOrElse, hx]

/-- Appending to `"REF #"` never yields the empty string. -/
theorem ref_append_ne_empty (x : String) : ("REF #" ++ x) ≠ "" := by
  intro h
  have h2 := congrArg String.data h
  rw [String.data_append] at h2
  have h3 := congrArg List.length h2
  simp [List.length_append] at h3

/-- C1 (amended): when the create request succeeds (with both amount
fields non-empty and no issuer overrides), the controller stores the
offer sequence and the optional tx hash in `tradeData`, clears the
active trade, stops any polling timer (creating none), shows the
confirmation screen (screen 4) with a demo-mode message, and triggers
one full refresh — it does not write an ActiveTrade and does not start
the poll loop. -/
theorem create_success_demo_mode (s : CtrlState) (f : TradeForm)
    (r : CreateResponse)
    (h1 : jsTrim f.sellAmount ≠ "") (h2 : jsTrim f.buyAmount ≠ "")
    (h3 : jsTrim f.sellIssuer = "") (h4 : jsTrim f.buyIssuer = "") :
    (startTradeFlow s f (.ok r)).1.activeTrade = none ∧
    (startTradeFlow s f (.ok r)).1.trackInterval = none ∧
    (startTradeFlow s f (.ok r)).1.nextTimerId = s.nextTimerId ∧
    (startTradeFlow s f (.ok r)).1.tradeData.offerSequence = some r.offer_sequence ∧
    (startTradeFlow s f (.ok r)).1.tradeData.txHash = some (jsOrElse r.tx_hash "—") ∧
    (startTradeFlow s f (.ok r)).1.screen = 4 ∧
    (startTradeFlow s f (.ok r)).2 =
      [Effect.setSubmitDisabled true,
       Effect.populateConfirmView (jsOrElse r.tx_hash "—")
         ("REF #" ++ (if r.offer_sequence = 0 then "—" else toString r.offer_sequence)),
       Effect.showScreen 4,
       Effect.message "Trade signed and submitted. Auto-completed in demo mode." false,
       Effect.refreshAll,
       Effect.setSubmitDisabled false] := by
  simp only [startTradeFlow, h1, h2, h3, h4, populateConfirm, showTradeScreen,
    showTradeScreenTarget, captureForm]
  simp [stopTradePolling_activeTrade, stopTradePolling_trackInterval,
    stopTradePolling_nextTimerId, stopTradePolling_tradeData,
    jsOrElse_of_ne _ _ (jsOrElse_dash_ne_empty r.tx_hash),
    jsOrElse_of_ne _ _ (ref_append_ne_empty _)]

theorem create_success_demo_mode_witness :
    jsTrim "100" ≠ "" ∧
    (startTradeFlow initState { sellCurrency := "EUR", sellAmount := "100", buyCurrency := "USD", buyAmount := "250" } (.ok { offer_sequence := 9, tx_hash := none })).1.activeTrade = none ∧
    (startTradeFlow initState { sellCurrency := "EUR", sellAmount := "100", buyCurrency := "USD", buyAmount := "250" } (.ok { offer_sequence := 9, tx_hash := none })).1.trackInterval = none := by
  have h := create_success_demo_mode initState
    { sellCurrency := "EUR", sellAmount := "100", buyCurrency := "USD", buyAmount := "250" }
    { offer_sequence := 9, tx_hash := none }
    (by decide) (by decide) (by decide) (by decide)
  exact ⟨by decide, h.1, h.2.1⟩

/-! ### C7 -/

/-- C7: a rejected status request during a poll tick is surfaced as a
non-fatal status message and changes nothing else: the state is
returned untouched, so the active trade, the interval timer (hence the
next scheduled tick) and the state machine's position are all
preserved. -/
theorem poll_error_transient (s : CtrlState) (e : Option String)
    (hg : refreshActiveTradeStatusGuard s = true) :
    pollTick s (.error e) =
      (s, [Effect.message (jsOrElse e "Trade status polling error.") true]) ∧
    (pollTick s (.error e)).1.trackInterval = s.trackInterval ∧
    (pollTick s (.error e)).1.activeTrade = s.activeTrade := by
  have h : pollTick s (.error e) =
      (s, [Effect.message (jsOrElse e "Trade status polling error.") true]) := by
    simp [pollTick, hg]
  exact ⟨h, by rw [h], by rw [h]⟩

theorem poll_error_transient_witness :
    refreshActiveTradeStatusGuard pollingState7 = true ∧
    pollTick pollingState7 (.error (some "timeout")) =
      (pollingState7, [Effect.message "timeout" true]) := by
  have h := poll_error_transient pollingState7 (some "timeout") (by decide)
  refine ⟨by decide, ?_⟩
  have h1 := h.1
  rw [show jsOrElse (some "timeout") "Trade status polling error." = "timeout" from by decide] at h1
  exact h1

/-! ### C5 -/

/-- C5: applying a poll response with a terminal non-success status
(`cancelled` or `failed`) stops the timer, clears the ActiveTrade,
triggers exactly one full refresh and exactly one navigation to the
dashboard, creates no new timer (nothing to retry with), and throws
nothing. -/
theorem terminal_failure_cleanup (s : CtrlState) (d : StatusData)
    (h : d.status = "cancelled" ∨ d.status = "failed") :
    (refreshActiveTradeStatusApply s d).1.trackInterval = none ∧
    (refreshActiveTradeStatusApply s d).1.activeTrade = none ∧
    (refreshActiveTradeStatusApply s d).1.nextTimerId = s.nextTimerId ∧
    (refreshActiveTradeStatusApply s d).2.1.count Effect.refreshAll = 1 ∧
    (refreshActiveTradeStatusApply s d).2.1.count (Effect.navigate "dashboard") = 1 ∧
    (refreshActiveTradeStatusApply s d).2.2 = none := by
  rcases h with h | h <;>
    simp [refreshActiveTradeStatusApply, h, stopTradePolling_trackInterval,
      stopTradePolling_nextTimerId, List.count_append, List.count_cons]

theorem terminal_failure_cleanup_witness :
    (refreshActiveTradeStatusApply pollingState7 { status := "cancelled" }).1.trackInterval = none ∧
    (refreshActiveTradeStatusApply pollingState7 { status := "cancelled" }).1.activeTrade = none ∧
    (refreshActiveTradeStatusApply pollingState7 { status := "cancelled" }).2.1.count Effect.refreshAll = 1 := by
  have h := terminal_failure_cleanup pollingState7 { status := "cancelled" } (Or.inl rfl)
  exact ⟨h.1, h.2.1, h.2.2.2.1⟩

/-! ### C6 -/

/-- C6: explicit cancellation while polling an active trade is atomic
with respect to failure.  If the backend cancel succeeds, the timer is
stopped, the ActiveTrade cleared, exactly one full refresh and one
navigation to the dashboard are triggered.  If it fails, the state is
returned completely unchanged (same ActiveTrade, same live timer, so
polling continues) and the error is surfaced as a message and an
alert. -/
theorem cancel_offer_atomic (s : CtrlState) (t : ActiveTrade) (e : Option String)
    (hAT : s.activeTrade = some t) (hseq : t.offerSequence ≠ 0) :
    (cancelOffer s (.ok ())).1.trackInterval = none ∧
    (cancelOffer s (.ok ())).1.activeTrade = none ∧
    (cancelOffer s (.ok ())).2.count Effect.refreshAll = 1 ∧
    (cancelOffer s (.ok ())).2.count (Effect.navigate "dashboard") = 1 ∧
    (cancelOffer s (.error e)).1 = s ∧
    (cancelOffer s (.error e)).2 =
      [Effect.message (jsOrElse e "Unable to cancel offer.") true,
       Effect.alert (jsOrElse e "Unable to cancel offer.")] := by
  refine ⟨?_, ?_, ?_, ?_, ?_, ?_⟩ <;>
    simp [cancelOffer, hAT, hseq, resetTrade, showTradeScreen,
      showTradeScreenTarget, stopTradePolling_trackInterval,
      stopTradePolling_activeTrade, List.count_append, List.count_cons]

theorem cancel_offer_atomic_witness :
    (cancelOffer pollingState7 (.ok ())).1.activeTrade = none ∧
    (cancelOffer pollingState7 (.ok ())).1.trackInterval = none ∧
    (cancelOffer pollingState7 (.error (some "not found"))).1 = pollingState7 := by
  have h := cancel_offer_atomic pollingState7 { offerSequence := 7, txHash := "H" }
    (some "not found") rfl (by decide)
  exact ⟨h.2.1, h.1, h.2.2.2.2.1⟩

/-! ### C2 -/

/-- C2 (a code bug the specification itself flags in its design
notes): a status response that settles after the tracked trade was
cleared is applied rather than silently discarded.  For the polling
state on offer #7 the guard passes and a request goes out; after the
trade is reset (ActiveTrade cleared, timer stopped), the late `filled`
response still renders the confirm screen and triggers a full refresh,
and a late `open` response throws on the null ActiveTrade, which the
interval's catch then surfaces as a user-facing error message. -/
theorem stale_poll_result_applied :
    refreshActiveTradeStatusGuard pollingState7 = true ∧
    clearedState7.activeTrade = none ∧
    (pollArrive clearedState7 { status := "filled", tx_hash := some "ABCD" }).2 ≠ [] ∧
    Effect.refreshAll ∈ (pollArrive clearedState7 { status := "filled", tx_hash := some "ABCD" }).2 ∧
    (pollArrive clearedState7 { status := "filled", tx_hash := some "ABCD" }).1.screen = 4 ∧
    Effect.message "TypeError: appState.activeTrade is null" true ∈
      (pollArrive clearedState7 { status := "open" }).2 := by
  decide

/-! ### C4 -/

theorem timerConsistent_init : timerConsistent initState := by
  refine ⟨?_, ?_, ?_⟩ <;> intro h <;> simp_all [initState, timerConsistent]

/-- Updating the non-timer fields of a consistent state preserves
consistency. -/
theorem timerConsistent_set (s : CtrlState) (h : timerConsistent s)
    (a : Option ActiveTrade) (td : TradeData) (n : Nat) :
    timerConsistent { s with activeTrade := a, tradeData := td, screen := n } :=
  h

theorem stopTradePolling_liveTimers (s : CtrlState) (h : timerConsistent s) :
    (stopTradePolling s).liveTimers = [] := by
  obtain ⟨h1, h2, h3⟩ := h
  unfold stopTradePolling
  cases ht : s.trackInterval with
  | none => exact h2 ht
  | some id =>
    show s.liveTimers.erase id = []
    rw [h1 id ht]
    simp

theorem timerConsistent_stop (s : CtrlState) (h : timerConsistent s) :
    timerConsistent (stopTradePolling s) := by
  have hl := stopTradePolling_liveTimers s h
  have hti := stopTradePolling_trackInterval s
  refine ⟨?_, ?_, ?_⟩
  · intro id hid
    rw [hti] at hid
    cases hid
  · intro _
    exact hl
  · intro id hid
    rw [hl] at hid
    cases hid

theorem timerConsistent_start (s : CtrlState) (h : timerConsistent s) :
    timerConsistent (startTradePolling s) := by
  have hl := stopTradePolling_liveTimers s h
  refine ⟨?_, ?_, ?_⟩
  · intro id hid
    have hid2 : (stopTradePolling s).nextTimerId = id := by
      simpa [startTradePolling] using hid
    show (startTradePolling s).liveTimers = [id]
    simp [startTradePolling, hl, hid2]
  · intro hid
    simp [startTradePolling] at hid
  · intro id hid
    simp only [startTradePolling, hl, List.nil_append, List.mem_singleton] at hid
    simp only [startTradePolling, hid]
    omega

theorem timerConsistent_refreshApply (s : CtrlState) (d : StatusData)
    (h : timerConsistent s) :
    timerConsistent (refreshActiveTradeStatusApply s d).1 := by
  unfold refreshActiveTradeStatusApply
  dsimp only [showTradeScreen, populateMatch]
  split
  · split
    · exact timerConsistent_set s h _ _ _
    · exact timerConsistent_set s h _ _ _
  · split
    · exact timerConsistent_set s h _ _ _
    · split
      · exact timerConsistent_stop _ (timerConsistent_set s h _ _ _)
      · split
        · exact timerConsistent_set (stopTradePolling s)
            (timerConsistent_stop s h) _ _ _
        · split
          · exact timerConsistent_set (stopTradePolling s)
              (timerConsistent_stop s h) _ _ _
          · exact h

theorem timerConsistent_pollArrive (s : CtrlState) (d : StatusData)
    (h : timerConsistent s) :
    timerConsistent (pollArrive s d).1 := by
  have hr := timerConsistent_refreshApply s d h
  unfold pollArrive
  split <;> rename_i s1 effs heq <;> rw [heq] at hr <;> exact hr

theorem timerConsistent_pollTick (s : CtrlState)
    (o : Except (Option String) StatusData) (h : timerConsistent s) :
    timerConsistent (pollTick s o).1 := by
  unfold pollTick
  split
  · exact h
  · split
    · exact h
    · exact timerConsistent_pollArrive s _ h

theorem timerConsistent_resetTrade (s : CtrlState) (h : timerConsistent s) :
    timerConsistent (resetTrade s).1 := by
  unfold resetTrade
  dsimp only [showTradeScreen]
  exact timerConsistent_set (stopTradePolling s) (timerConsistent_stop s h) _ _ _

theorem timerConsistent_cancelOffer (s : CtrlState)
    (r : Except (Option String) Unit) (h : timerConsistent s) :
    timerConsistent (cancelOffer s r).1 := by
  unfold cancelOffer
  dsimp only
  split
  · exact timerConsistent_resetTrade s h
  · split
    · exact timerConsistent_resetTrade _
        (timerConsistent_set (stopTradePolling s) (timerConsistent_stop s h) _ _ _)
    · exact h

theorem timerConsistent_startTradeFlow (s : CtrlState) (f : TradeForm)
    (r : Except (Option String) CreateResponse) (h : timerConsistent s) :
    timerConsistent (startTradeFlow s f r).1 := by
  unfold startTradeFlow
  dsimp only [showTradeScreen]
  split
  · exact timerConsistent_set s h _ _ _
  · split
    · exact timerConsistent_set _
        (timerConsistent_stop _ (timerConsistent_set s h _ _ _)) _ _ _
    · exact timerConsistent_set s h _ _ _

theorem timerConsistent_applyOp (s : CtrlState) (op : TradeOp)
    (h : timerConsistent s) : timerConsistent (applyOp s op) := by
  cases op with
  | create f r => exact timerConsistent_startTradeFlow s f r h
  | tick o => exact timerConsistent_pollTick s o h
  | arrive d => exact timerConsistent_pollArrive s d h
  | startPolling => exact timerConsistent_start s h
  | reset => exact timerConsistent_resetTrade s h
  | cancel r => exact timerConsistent_cancelOffer s r h

theorem timerConsistent_foldl (ops : List TradeOp) :
    timerConsistent (ops.foldl applyOp initState) := by
  suffices h : ∀ (l : List TradeOp) (s : CtrlState), timerConsistent s →
      timerConsistent (l.foldl applyOp s) from
    h ops initState timerConsistent_init
  intro l
  induction l with
  | nil => intro s hs; exact hs
  | cons op l ih =>
    intro s hs
    exact ih _ (timerConsistent_applyOp s op hs)

/-- Starting a new poll while a timer is live replaces it by the single
fresh timer (the prior one is stopped first and its id never reused). -/
theorem startTradePolling_fresh (s : CtrlState) (h : timerConsistent s)
    (id : Nat) (hid : s.trackInterval = some id) :
    (startTradePolling s).liveTimers = [s.nextTimerId] ∧ id ≠ s.nextTimerId := by
  obtain ⟨h1, h2, h3⟩ := h
  have hl := stopTradePolling_liveTimers s ⟨h1, h2, h3⟩
  have hn := stopTradePolling_nextTimerId s
  constructor
  · unfold startTradePolling
    show (stopTradePolling s).liveTimers ++ [(stopTradePolling s).nextTimerId] = _
    rw [hl, hn]
    simp
  · have hmem : id ∈ s.liveTimers := by
      rw [h1 id hid]
      simp
    have := h3 id hmem
    omega

/-- C4: at most one live polling timer ever exists.  In every state
reachable by any sequence of controller invocations there is at most
one live interval timer, and if one is live, starting a new poll stops
exactly that one before the (distinct, fresh) replacement is created. -/
theorem at_most_one_poll_timer (ops : List TradeOp) :
    (ops.foldl applyOp initState).liveTimers.length ≤ 1 ∧
    ∀ id, (ops.foldl applyOp initState).trackInterval = some id →
      (startTradePolling (ops.foldl applyOp initState)).liveTimers =
        [(ops.foldl applyOp initState).nextTimerId] ∧
      id ≠ (ops.foldl applyOp initState).nextTimerId := by
  have h := timerConsistent_foldl ops
  constructor
  · obtain ⟨h1, h2, h3⟩ := h
    cases ht : (ops.foldl applyOp initState).trackInterval with
    | none => rw [h2 ht]; simp
    | some id => rw [h1 id ht]; simp
  · intro id hid
    exact startTradePolling_fresh _ h id hid

theorem at_most_one_poll_timer_witness :
    ([TradeOp.startPolling].foldl applyOp initState).liveTimers.length ≤ 1 ∧
    (startTradePolling ([TradeOp.startPolling].foldl applyOp initState)).liveTimers = [2] := by
  have h := at_most_one_poll_timer [TradeOp.startPolling]
  refine ⟨h.1, ?_⟩
  have h3 := (h.2 1 (by decide)).1
  rw [show ([TradeOp.startPolling].foldl applyOp initState).nextTimerId = 2 from rfl] at h3
  exact h3

end App
